import Mathlib

/-!
Verification development for the Drug-Gen-AI pharmacogenomic prototype.

The development shallowly embeds the two core source modules:
  * `model.py` — static drug/gene rule tables, per-gene phenotype decision
    functions (`call_cyp2d6_phenotype`, `call_cyp2c19_phenotype`,
    `call_cyp2c9_phenotype`, `call_ugt1a1_phenotype`) and the scoring
    orchestrator `compute_drug_scores`;
  * `utils.py` — the two file-format parsers `parse_23andme_csv` and
    `parse_vcf` that produce the rsID → genotype `MarkerMap`.

Python strings are modelled as Lean `String`; Python dictionaries are
modelled as association lists with unique keys, with `mmInsert` reproducing
CPython insertion semantics (an existing key keeps its position and gets the
new value, a fresh key is appended).  Python functions that can raise an
uncaught exception are modelled in `Option`, with `none` standing for the
exception escaping.  All other functions are total, mirroring the fact that
the corresponding Python code cannot raise.
-/

namespace DrugGen

/-! ## Python string primitives

The Python builtins used by the source are re-implemented over `List Char`
so that every definition is executable and kernel-reducible. -/

/-- Python `s.count(c)` for a single-character needle `c`. -/
def countChar (c : Char) (s : String) : Nat := s.data.count c

/-- Python `s.replace(c, "")` for a single-character needle: every
occurrence of `c` is removed. -/
def removeChar (c : Char) (s : String) : String :=
  String.mk (s.data.filter (fun a => a ≠ c))

/-- Python `s.replace(a, b)` for single-character needle and replacement. -/
def replaceChar (a b : Char) (s : String) : String :=
  String.mk (s.data.map (fun c => if c = a then b else c))

/-- Action of Python `str.upper()` on one character (ASCII letters only,
matching the genomic tokens the source manipulates). -/
def upperChar (c : Char) : Char :=
  if 97 ≤ c.toNat ∧ c.toNat ≤ 122 then Char.ofNat (c.toNat - 32) else c

/-- Python `s.upper()` (ASCII). -/
def pyUpper (s : String) : String := String.mk (s.data.map upperChar)

/-- Action of Python `str.lower()` on one character (ASCII). -/
def lowerChar (c : Char) : Char :=
  if 65 ≤ c.toNat ∧ c.toNat ≤ 90 then Char.ofNat (c.toNat + 32) else c

/-- Python `s.lower()` (ASCII). -/
def pyLower (s : String) : String := String.mk (s.data.map lowerChar)

/-- Python whitespace characters recognised by `str.strip()`. -/
def pyIsSpace (c : Char) : Bool :=
  c.toNat = 32 ∨ c.toNat = 9 ∨ c.toNat = 10 ∨ c.toNat = 13 ∨
    c.toNat = 11 ∨ c.toNat = 12

/-- Python `s.strip()`: removes leading and trailing whitespace. -/
def pyStrip (s : String) : String :=
  String.mk (((s.data.dropWhile pyIsSpace).reverse.dropWhile pyIsSpace).reverse)

/-- Python `s.startswith(pre)`. -/
def pyStartsWith (pre s : String) : Bool :=
  s.data.take pre.data.length == pre.data

/-- Helper for `splitChar`: split a character list at every separator. -/
def splitCharList (sep : Char) : List Char → List (List Char)
  | [] => [[]]
  | c :: cs =>
      let r := splitCharList sep cs
      if c = sep then [] :: r
      else match r with
        | [] => [[c]]
        | g :: gs => (c :: g) :: gs

/-- Python `s.split(sep)` for a one-character separator (the source only
splits on `"\t"`, `":"`, `"/"` and `","`). -/
def splitChar (sep : Char) (s : String) : List String :=
  (splitCharList sep s.data).map String.mk

/-- Digit run to number, for `pyInt`. -/
def digitsToNat? (l : List Char) : Option Nat :=
  if l ≠ [] ∧ l.all Char.isDigit then
    some (l.foldl (fun n c => 10 * n + (c.toNat - 48)) 0)
  else none

/-- Python `int(s)` restricted to optional surrounding whitespace, an
optional sign and a decimal digit run; `none` models `ValueError`. -/
def pyInt (s : String) : Option Int :=
  let t := (pyStrip s).data
  match t with
  | '-' :: rest => (digitsToNat? rest).map (fun n => -(n : Int))
  | '+' :: rest => (digitsToNat? rest).map (fun n => (n : Int))
  | _ => (digitsToNat? t).map (fun n => (n : Int))

/-- Python list indexing `xs[i]` with negative-index support; `none` models
`IndexError`. -/
def pyIndex (xs : List String) (i : Int) : Option String :=
  if 0 ≤ i then xs.get? i.toNat
  else if 0 ≤ (xs.length : Int) + i then xs.get? ((xs.length : Int) + i).toNat
  else none

/-- Lookup in the dictionary `dict(zip(ks, vs))`: zip truncates to the
shorter list and a later duplicate key overwrites an earlier one. -/
def zipGet (ks vs : List String) (key : String) : Option String :=
  (List.zip ks vs).foldl (fun acc p => if p.1 = key then some p.2 else acc) none

/-! ## MarkerMap: the Python `{rsid: genotype}` dictionary -/

/-- The uniform marker mapping produced by both parsers: an association
list from rsID to genotype string, keys unique, insertion order kept. -/
abbrev MarkerMap := List (String × String)

/-- Python `d.get(k)` / `k in d` combined: first (unique) binding of `k`. -/
def mmFind (m : MarkerMap) (k : String) : Option String :=
  (m.find? (fun p => p.1 == k)).map (fun p => p.2)

/-- Python `d[k] = v`: an existing key keeps its position and receives the
new value, a fresh key is appended at the end. -/
def mmInsert (m : MarkerMap) (k v : String) : MarkerMap :=
  if m.any (fun p => p.1 == k) then
    m.map (fun p => if p.1 == k then (k, v) else p)
  else m ++ [(k, v)]

/-! ## model.py: rule tables and phenotype decision functions -/

/-- Python truthiness test `if gt:` applied to an optional genotype string
followed by `gt.count(c)`: `None` and the empty string contribute zero. -/
def truthyCount (c : Char) (o : Option String) : Nat :=
  match o with
  | some g => if g = "" then 0 else countChar c g
  | none => 0

/-- `model.py` `call_cyp2d6_phenotype(found)`: decision logic for CYP2D6.
The source comment reads "assume for rs3892097 (G = loss) (prototype
assumption)"; when the rs3892097 block does not return, control falls
through to the rs1065852 block, and otherwise to `"normal"`. -/
def call_cyp2d6_phenotype (found : MarkerMap) : String :=
  let gt389 := mmFind found "rs3892097"
  let gt106 := mmFind found "rs1065852"
  let fromRs106 : String :=
    match gt106 with
    | some g =>
        if countChar 'A' g = 2 then "poor"
        else if countChar 'A' g = 1 then "intermediate"
        else "normal"
    | none => "normal"
  match gt389 with
  | some g =>
      if g.data.contains 'G' ∧ countChar 'G' g = 2 then "poor"
      else if g.data.contains 'G' ∧ countChar 'G' g = 1 then "intermediate"
      else fromRs106
  | none => fromRs106

/-- `model.py` `call_cyp2c19_phenotype(found)`: counts the rs4244285 loss
allele `A` and the rs12248560 gain allele `T`, loss checked first. -/
def call_cyp2c19_phenotype (found : MarkerMap) : String :=
  let loss := truthyCount 'A' (mmFind found "rs4244285")
  let gain := truthyCount 'T' (mmFind found "rs12248560")
  if 2 ≤ loss then "poor"
  else if loss = 1 then "intermediate"
  else if 1 ≤ gain then (if gain = 1 then "rapid" else "ultrarapid")
  else "normal"

/-- `model.py` `call_cyp2c9_phenotype(found)`: counts the rs1799853 `T`
and rs1057910 `C` loss alleles. -/
def call_cyp2c9_phenotype (found : MarkerMap) : String :=
  let loss := truthyCount 'T' (mmFind found "rs1799853") +
    truthyCount 'C' (mmFind found "rs1057910")
  if 2 ≤ loss then "poor"
  else if loss = 1 then "intermediate"
  else "normal"

/-- `model.py` `call_ugt1a1_phenotype(found)`: counts the rs887829 `T`
allele; a missing or empty genotype short-circuits to `"normal"`. -/
def call_ugt1a1_phenotype (found : MarkerMap) : String :=
  match mmFind found "rs887829" with
  | none => "normal"
  | some g =>
      if g = "" then "normal"
      else
        let t := countChar 'T' g
        if 2 ≤ t then "poor"
        else if t = 1 then "intermediate"
        else "normal"

/-- `model.py` `PHENOTYPE_SCORE`: the generic phenotype score table (defined
in the source but not consulted by `compute_drug_scores`). -/
def PHENOTYPE_SCORE : List (String × Nat) :=
  [("poor", 10), ("intermediate", 45), ("normal", 85),
   ("rapid", 95), ("ultrarapid", 99)]

/-- One entry of the `model.py` `DRUGS` table. -/
structure DrugMeta where
  description : String
  gene_rsids : List String
  type : String
deriving DecidableEq

/-- `DRUGS["Codeine"]`. -/
def codeineMeta : DrugMeta :=
  { description := "Codeine is converted to morphine by CYP2D6. Poor metabolizers get little pain relief; ultrarapid may have toxicity.",
    gene_rsids := ["rs1065852", "rs3892097"],
    type := "prodrug_cytochrome2d6" }

/-- `DRUGS["Clopidogrel"]`. -/
def clopidogrelMeta : DrugMeta :=
  { description := "Clopidogrel requires activation by CYP2C19. Poor metabolizers have reduced antiplatelet effect.",
    gene_rsids := ["rs4244285", "rs12248560"],
    type := "prodrug_cytochrome2c19" }

/-- `DRUGS["Ibuprofen"]`. -/
def ibuprofenMeta : DrugMeta :=
  { description := "Ibuprofen is metabolized by CYP2C9. Reduced function increases exposure and side-effect risk.",
    gene_rsids := ["rs1799853", "rs1057910"],
    type := "metabolized_cytochrome2c9" }

/-- `DRUGS["Paracetamol"]`. -/
def paracetamolMeta : DrugMeta :=
  { description := "Paracetamol is largely glucuronidated (UGT1A1) and sulfated; variants may change toxicity risk.",
    gene_rsids := ["rs887829"],
    type := "glucuronidation_ugt1a1" }

/-- `DRUGS["Omeprazole"]`. -/
def omeprazoleMeta : DrugMeta :=
  { description := "Omeprazole is metabolized by CYP2C19; poor metabolizers have higher exposure.",
    gene_rsids := ["rs4244285", "rs12248560"],
    type := "prodrug_cytochrome2c19" }

/-- `model.py` `DRUGS`, in dictionary insertion order. -/
def DRUGS : List (String × DrugMeta) :=
  [("Codeine", codeineMeta), ("Clopidogrel", clopidogrelMeta),
   ("Ibuprofen", ibuprofenMeta), ("Paracetamol", paracetamolMeta),
   ("Omeprazole", omeprazoleMeta)]

/-- One value of the result dictionary of `compute_drug_scores`. -/
structure DrugResult where
  score : Nat
  phenotype : String
  explanation : String
deriving DecidableEq

/-- An ASCII single quote, for rendering Python `repr`. -/
def sq : String := String.mk [Char.ofNat 39]

/-- Python `repr` of a `{str: str}` dictionary as interpolated by the
f-string in `compute_drug_scores` (keys and values without embedded quotes,
which is the case for all rsIDs and genotype tokens). -/
def pyDictRepr (m : MarkerMap) : String :=
  "\x7b" ++
    String.intercalate ", "
      (m.map (fun p => sq ++ p.1 ++ sq ++ ": " ++ sq ++ p.2 ++ sq)) ++
  "\x7d"

/-- The explanation f-string of `compute_drug_scores`; an empty `found`
dictionary is falsy and renders as the literal notice. -/
def explanationFor (meta : DrugMeta) (found : MarkerMap) (phenotype : String) :
    String :=
  meta.description ++ " Detected genotype markers: " ++
    (if found = [] then "none found in file." else pyDictRepr found) ++
    " => phenotype: " ++ phenotype ++ "."

/-- The `found` sub-dictionary of `compute_drug_scores`: the drug's rsIDs
that are present in the uploaded marker map, in `gene_rsids` order. -/
def foundFor (rsids : List String) (snp : MarkerMap) : MarkerMap :=
  rsids.foldl
    (fun acc r =>
      match mmFind snp r with
      | some v => mmInsert acc r v
      | none => acc)
    []

/-- The per-drug branch of `compute_drug_scores`: dispatch on the drug's
`type` tag, call the gene decision function and apply the drug-specific,
direction-aware phenotype→score table.  Returns `(phenotype, score)`. -/
def drugPhenotypeScore (drug : String) (meta : DrugMeta) (found : MarkerMap) :
    String × Nat :=
  if meta.type = "prodrug_cytochrome2d6" then
    let p := call_cyp2d6_phenotype found
    (p, if p = "poor" then 10
        else if p = "intermediate" then 40
        else if p = "normal" then 85
        else if p = "rapid" then 95
        else 99)
  else if meta.type = "prodrug_cytochrome2c19" then
    let p := call_cyp2c19_phenotype found
    if drug = "Clopidogrel" then
      (p, if p = "poor" then 20
          else if p = "intermediate" then 50
          else if p = "rapid" ∨ p = "ultrarapid" then 90
          else 90)
    else
      (p, if p = "poor" then 95
          else if p = "intermediate" then 75
          else 60)
  else if meta.type = "metabolized_cytochrome2c9" then
    let p := call_cyp2c9_phenotype found
    (p, if p = "poor" then 70
        else if p = "intermediate" then 80
        else 85)
  else if meta.type = "glucuronidation_ugt1a1" then
    let p := call_ugt1a1_phenotype found
    (p, if p = "poor" then 60
        else if p = "intermediate" then 75
        else 88)
  else ("unknown", 50)

/-- One iteration of the `for drug, meta in DRUGS.items()` loop. -/
def scoreEntry (snp : MarkerMap) (p : String × DrugMeta) : String × DrugResult :=
  let found := foundFor p.2.gene_rsids snp
  let ps := drugPhenotypeScore p.1 p.2 found
  (p.1, { score := ps.2, phenotype := ps.1,
          explanation := explanationFor p.2 found ps.1 })

/-- `model.py` `compute_drug_scores(snp_dict)`: one result per configured
drug, in the `DRUGS` table order.  The function is total: the source only
uses `in`/`get`-style dictionary access, so no exception can escape. -/
def compute_drug_scores (snp : MarkerMap) : List (String × DrugResult) :=
  DRUGS.map (scoreEntry snp)

/-- Lookup of one drug's entry in the result dictionary. -/
def lookupResult (res : List (String × DrugResult)) (d : String) :
    Option DrugResult :=
  (res.find? (fun p => p.1 == d)).map (fun p => p.2)

/-! ## utils.py: the tabular parser

`parse_23andme_csv` is embedded from the point where pandas has produced a
data frame: the frame is a header (column names) plus rows of cell strings.
The pandas delimiter auto-detection itself is external I/O and is not part
of any claim.  Cell access by column label is modelled positionally through
the index of the first matching label, which coincides with pandas access
for non-duplicated labels. -/

/-- `str(row[col]).strip().upper()` then the three `replace` calls of the
rsid/genotype branch: trim, uppercase, then remove `/`, `|` and `" "`. -/
def normalizeGt (raw : String) : String :=
  removeChar ' ' (removeChar '|' (removeChar '/' (pyUpper (pyStrip raw))))

/-- Cell of a row at a column position (pandas rows are rectangular). -/
def cellAt (row : List String) (i : Nat) : String := row.getD i ""

/-- One iteration of the `df.iterrows()` loop of the rsid/genotype branch
of `parse_23andme_csv`. -/
def csvStep (rsIdx gtIdx : Nat) (acc : MarkerMap) (row : List String) :
    MarkerMap :=
  let rs := pyStrip (cellAt row rsIdx)
  let gt := normalizeGt (cellAt row gtIdx)
  if rs ≠ "" ∧ pyStartsWith "rs" rs then mmInsert acc rs gt else acc

/-- The rsid/genotype branch of `parse_23andme_csv`: row-wise extraction,
`rs`-prefix filtering, genotype normalization, dictionary insertion
(last occurrence of a duplicate rsid wins). -/
def parse_rsid_genotype (rsIdx gtIdx : Nat) (rows : List (List String)) :
    MarkerMap :=
  rows.foldl (csvStep rsIdx gtIdx) []

/-- The headerless two-column fallback branch of `parse_23andme_csv`. -/
def parse_two_column (rows : List (List String)) : MarkerMap :=
  rows.foldl
    (fun acc row =>
      if 2 ≤ row.length then
        let rs := pyStrip (cellAt row 0)
        let gt := pyUpper (pyStrip (cellAt row 1))
        if pyStartsWith "rs" rs then
          mmInsert acc rs (removeChar ' ' (removeChar '|' (removeChar '/' gt)))
        else acc
      else acc)
    []

/-- `row0[col]` for the gene/value fallback: value of the first column
whose label equals `col`. -/
def rowValue (row0 header : List String) (col : String) : String :=
  match header.findIdx? (fun c => c = col) with
  | some i => cellAt row0 i
  | none => ""

/-- The single-row gene/value fallback branch of `parse_23andme_csv`;
`df.iloc[0]` raises `IndexError` on an empty frame (`none`). -/
def parse_gene_value (header : List String) (rows : List (List String)) :
    Option MarkerMap :=
  match rows with
  | [] => none
  | row0 :: _ =>
      some (header.foldl
        (fun acc col => mmInsert acc (pyStrip col) (pyStrip (rowValue row0 header col)))
        [])

/-- Index of the first column whose lowercased label is `name`
(Python `cols.index(name)`). -/
def colIndexLower (header : List String) (name : String) : Nat :=
  (header.map pyLower).indexOf name

/-- `utils.py` `parse_23andme_csv` after pandas tokenization: the
rsid/genotype branch, else the two-column fallback when some header label
(lowercased) starts with `rs`, else the gene/value fallback. -/
def parse_23andme_csv (header : List String) (rows : List (List String)) :
    Option MarkerMap :=
  let cols := header.map pyLower
  if "rsid" ∈ cols ∧ "genotype" ∈ cols then
    some (parse_rsid_genotype (colIndexLower header "rsid")
      (colIndexLower header "genotype") rows)
  else if header.any (fun h => pyStartsWith "rs" (pyLower h)) then
    some (parse_two_column rows)
  else parse_gene_value header rows

/-! ## utils.py: the VCF parser

`parse_vcf` is embedded from the decoded line list (`splitlines` output).
The only uncaught exception in the source is the `IndexError` from
`sample_vals[gt_index]` (the surrounding `try` only catches `ValueError`),
modelled by `none`. -/

/-- Resolution of one GT allele token against REF/ALT: `.` stays a missing
marker, `0` is REF, `1` is the first ALT allele, any other integer `n` is
`alt.split(",")[n-1]` with Python indexing, anything unparsable is `.`. -/
def resolveAllele (ref alt : String) (tok : String) : String :=
  if tok = "." then "."
  else if tok = "0" then ref
  else if tok = "1" then
    (if alt.data.contains ',' then (splitChar ',' alt).headD "" else alt)
  else
    match pyInt tok with
    | none => "."
    | some idx =>
        match pyIndex (splitChar ',' alt) (idx - 1) with
        | none => "."
        | some a => a

/-- The REF/ALT fallback of `parse_vcf` when no FORMAT/GT genotype is
resolvable: REF plus first ALT, concatenated when both are one character,
otherwise joined with `/`; empty REF or ALT yields the empty genotype. -/
def vcfFallbackGenotype (ref alt : String) : String :=
  if alt ≠ "" ∧ ref ≠ "" then
    let a1 := ref
    let a2 := (splitChar ',' alt).headD ""
    if a1.length = 1 ∧ a2.length = 1 then a1 ++ a2 else a1 ++ "/" ++ a2
  else ""

/-- The FORMAT/GT block of `parse_vcf`.  `some none` means the genotype
stayed `None` (triggering the fallback), `some (some g)` is a resolved
genotype, `none` is the uncaught `IndexError`. -/
def vcfResolveGenotype (headerCols parts : List String) (ref alt : String) :
    Option (Option String) :=
  match zipGet headerCols parts "FORMAT" with
  | none => some none
  | some fmtStr =>
      match headerCols.findIdx? (fun c => c = "FORMAT") with
      | none => some none
      | some fi =>
          if fi + 1 < parts.length then
            let fmt := splitChar ':' fmtStr
            let sample := parts.getD (fi + 1) ""
            let sampleVals := splitChar ':' sample
            match fmt.findIdx? (fun x => x = "GT") with
            | none => some none
            | some gtIndex =>
                match sampleVals.get? gtIndex with
                | none => none
                | some gt =>
                    let toks := splitChar '/' (replaceChar '|' '/' gt)
                    some (some (String.join (toks.map (resolveAllele ref alt))))
          else some none

/-- The final normalization applied to every stored genotype:
`genotype.replace("/", "").replace("|", "")`. -/
def vcfStoreValue (g : String) : String := removeChar '|' (removeChar '/' g)

/-- Loop state of `parse_vcf`: the captured `#CHROM` header (if any) and
the records accumulated so far. -/
structure VcfState where
  header : Option (List String)
  records : MarkerMap
deriving DecidableEq

/-- The body of the `parse_vcf` loop for a data line once a header has been
captured: extract ID/REF/ALT, resolve the genotype, fall back to REF+ALT,
store under the rsID when it carries the `rs` prefix.  `none` is the
uncaught `IndexError`. -/
def vcfDataLine (headerCols : List String) (records : MarkerMap)
    (line : String) : Option MarkerMap :=
  let parts := splitChar '\t' line
  let rsid := pyStrip ((zipGet headerCols parts "ID").getD "")
  let ref := pyStrip ((zipGet headerCols parts "REF").getD "")
  let alt := pyStrip ((zipGet headerCols parts "ALT").getD "")
  match vcfResolveGenotype headerCols parts ref alt with
  | none => none
  | some gOpt =>
      let genotype :=
        match gOpt with
        | some g => g
        | none => vcfFallbackGenotype ref alt
      if rsid ≠ "" ∧ pyStartsWith "rs" rsid then
        some (mmInsert records rsid (vcfStoreValue genotype))
      else some records

/-- One iteration of the `for line in text` loop of `parse_vcf`. -/
def vcfLine (st : VcfState) (line : String) : Option VcfState :=
  if pyStartsWith "##" line then some st
  else if pyStartsWith "#CHROM" line then
    some ⟨some (splitChar '\t' (String.mk (line.data.dropWhile (fun c => c = '#')))),
      st.records⟩
  else if pyStrip line = "" then some st
  else
    match st.header with
    | none => some st
    | some headerCols =>
        (vcfDataLine headerCols st.records line).map (fun r => ⟨st.header, r⟩)

/-- Folding `vcfLine` over the input lines. -/
def vcfRun (st : VcfState) : List String → Option VcfState
  | [] => some st
  | l :: ls =>
      match vcfLine st l with
      | none => none
      | some st2 => vcfRun st2 ls

/-- `utils.py` `parse_vcf` on the decoded input lines; `none` is the single
uncaught-exception path. -/
def parse_vcf (lines : List String) : Option MarkerMap :=
  (vcfRun ⟨none, []⟩ lines).map VcfState.records

/-! ## Claim theorems -/

/-! ### Spec-side characterizations and helper lemmas -/

/-- Spec-side allele dosage: occurrences of allele `c` in the genotype
observed at `r`, zero when `r` is absent from the map. -/
def alleleCount (found : MarkerMap) (r : String) (c : Char) : Nat :=
  match mmFind found r with
  | some g => countChar c g
  | none => 0

/-- Spec-side CYP2C19 mapping, following the claim wording: loss dosage
first (≥2 poor, 1 intermediate), then gain dosage (≥2 ultrarapid,
1 rapid), else normal. -/
def cyp2c19Spec (found : MarkerMap) : String :=
  let loss := alleleCount found "rs4244285" 'A'
  let gain := alleleCount found "rs12248560" 'T'
  if 2 ≤ loss then "poor"
  else if loss = 1 then "intermediate"
  else if 2 ≤ gain then "ultrarapid"
  else if gain = 1 then "rapid"
  else "normal"

/-- Spec-side predicate: the string is free of the two genotype
separators. -/
def sepFree (v : String) : Prop := '/' ∉ v.data ∧ '|' ∉ v.data

/-- Spec-side, row-wise view of the rsid/genotype branch: the (rsid,
normalized genotype) pair a row contributes, or `none` when the row is
dropped by the `rs`-prefix filter. -/
def retainedPair (rsIdx gtIdx : Nat) (row : List String) :
    Option (String × String) :=
  let rs := pyStrip (cellAt row rsIdx)
  if rs ≠ "" ∧ pyStartsWith "rs" rs then
    some (rs, normalizeGt (cellAt row gtIdx))
  else none

/-- All retained (rsid, genotype) pairs of a table, in row order,
duplicates included. -/
def retainedPairs (rsIdx gtIdx : Nat) (rows : List (List String)) :
    List (String × String) :=
  rows.filterMap (retainedPair rsIdx gtIdx)

/-- Value of the last pair carrying key `k` (spec-side "last occurrence
wins"). -/
def lookupLast (l : List (String × String)) (k : String) : Option String :=
  (l.reverse.find? (fun p => p.1 == k)).map (fun p => p.2)

/-- Left-biased choice on optional values. -/
def orO (a b : Option String) : Option String :=
  match a with
  | some v => some v
  | none => b

/-- The value a retained row contributes for key `k`, if its rsid is `k`. -/
def pairHit (o : Option (String × String)) (k : String) : Option String :=
  match o with
  | some p => if p.1 = k then some p.2 else none
  | none => none

lemma truthyCount_some (c : Char) (g : String) :
    truthyCount c (some g) = countChar c g := by
  by_cases h : g = ""
  · subst h; rfl
  · simp [truthyCount, h]

lemma truthyCount_eq_alleleCount (found : MarkerMap) (r : String) (c : Char) :
    truthyCount c (mmFind found r) = alleleCount found r c := by
  unfold alleleCount
  cases h : mmFind found r
  · rfl
  · exact truthyCount_some _ _

lemma c19_branch_eq (loss gain : Nat) :
    (if 2 ≤ loss then "poor"
     else if loss = 1 then "intermediate"
     else if 1 ≤ gain then (if gain = 1 then "rapid" else "ultrarapid")
     else "normal")
    = (if 2 ≤ loss then "poor"
       else if loss = 1 then "intermediate"
       else if 2 ≤ gain then "ultrarapid"
       else if gain = 1 then "rapid"
       else "normal") := by
  rcases loss with _ | _ | l <;> rcases gain with _ | _ | g <;> simp

lemma cyp2d6_cases (found : MarkerMap) :
    call_cyp2d6_phenotype found = "poor" ∨
    call_cyp2d6_phenotype found = "intermediate" ∨
    call_cyp2d6_phenotype found = "normal" := by
  unfold call_cyp2d6_phenotype
  cases mmFind found "rs3892097" <;> cases mmFind found "rs1065852" <;>
    simp only [] <;> (try split_ifs) <;> simp

lemma foundFor_eq_nil (rsids : List String) (snp : MarkerMap)
    (h : ∀ r ∈ rsids, mmFind snp r = none) : foundFor rsids snp = [] := by
  unfold foundFor
  induction rsids with
  | nil => rfl
  | cons r rs ih =>
      have hr := h r (List.mem_cons_self r rs)
      simp only [List.foldl_cons, hr]
      exact ih (fun x hx => h x (List.mem_cons_of_mem _ hx))

/-! ### String normalization lemmas -/

lemma data_removeChar (c : Char) (s : String) :
    (removeChar c s).data = s.data.filter (fun a => a ≠ c) := rfl

lemma not_mem_removeChar_self (c : Char) (s : String) :
    c ∉ (removeChar c s).data := by
  rw [data_removeChar]
  simp [List.mem_filter]

lemma not_mem_removeChar_of (a c : Char) (s : String) (h : a ∉ s.data) :
    a ∉ (removeChar c s).data := by
  rw [data_removeChar]
  intro hm
  exact h (List.mem_of_mem_filter hm)

lemma mem_of_mem_removeChar {a c : Char} {s : String}
    (h : a ∈ (removeChar c s).data) : a ∈ s.data := by
  rw [data_removeChar] at h
  exact List.mem_of_mem_filter h

lemma upperChar_of_not (c : Char) (h : ¬(97 ≤ c.toNat ∧ c.toNat ≤ 122)) :
    upperChar c = c := by
  rw [upperChar, if_neg h]

lemma upperChar_idem (c : Char) : upperChar (upperChar c) = upperChar c := by
  by_cases h : 97 ≤ c.toNat ∧ c.toNat ≤ 122
  · have h2 : upperChar c = Char.ofNat (c.toNat - 32) := by rw [upperChar, if_pos h]
    rw [h2]
    refine upperChar_of_not _ ?_
    obtain ⟨h1, h2⟩ := h
    generalize c.toNat = m at h1 h2
    interval_cases m <;> decide
  · have h2 : upperChar c = c := upperChar_of_not _ h
    rw [h2]
    exact h2

lemma data_pyUpper (s : String) : (pyUpper s).data = s.data.map upperChar := rfl

lemma map_upperChar_id {l : List Char} (h : ∀ c ∈ l, upperChar c = c) :
    l.map upperChar = l := by
  induction l with
  | nil => rfl
  | cons c cs ih =>
      rw [List.map_cons, h c (List.mem_cons_self c cs),
        ih (fun x hx => h x (List.mem_cons_of_mem _ hx))]

lemma pyUpper_fixed_of {v : String} (h : ∀ c ∈ v.data, upperChar c = c) :
    pyUpper v = v := by
  show String.mk (v.data.map upperChar) = v
  rw [map_upperChar_id h]

lemma upperChar_fixed_of_mem_pyUpper {c : Char} {s : String}
    (h : c ∈ (pyUpper s).data) : upperChar c = c := by
  rw [data_pyUpper] at h
  obtain ⟨a, _, rfl⟩ := List.mem_map.mp h
  exact upperChar_idem a

/-- The four normalization facts about every stored csv genotype value. -/
lemma normalizeGt_ok (raw : String) :
    '/' ∉ (normalizeGt raw).data ∧ '|' ∉ (normalizeGt raw).data ∧
    ' ' ∉ (normalizeGt raw).data ∧ pyUpper (normalizeGt raw) = normalizeGt raw := by
  refine ⟨?_, ?_, ?_, ?_⟩
  · exact not_mem_removeChar_of _ _ _
      (not_mem_removeChar_of _ _ _ (not_mem_removeChar_self '/' _))
  · exact not_mem_removeChar_of _ _ _ (not_mem_removeChar_self '|' _)
  · exact not_mem_removeChar_self ' ' _
  · refine pyUpper_fixed_of ?_
    intro c hc
    exact upperChar_fixed_of_mem_pyUpper
      (mem_of_mem_removeChar (mem_of_mem_removeChar (mem_of_mem_removeChar hc)))

/-! ### MarkerMap dictionary lemmas -/

lemma find?_append_option (p : String × String → Bool) (l1 l2 : MarkerMap) :
    (l1 ++ l2).find? p =
      (match l1.find? p with
       | some x => some x
       | none => l2.find? p) := by
  induction l1 with
  | nil => rfl
  | cons q l ih =>
      by_cases hq : p q
      · simp [List.find?_cons_of_pos, hq]
      · simp [List.find?_cons_of_neg, hq, ih]

lemma find?_replace_self {m : MarkerMap} {a : String} (v : String)
    (hm : m.any (fun p => p.1 == a) = true) :
    (m.map (fun p => if p.1 == a then (a, v) else p)).find?
      (fun p => p.1 == a) = some (a, v) := by
  induction m with
  | nil => simp at hm
  | cons q m ih =>
      rw [List.map_cons]
      by_cases hq : q.1 = a
      · have h1 : (if q.1 == a then (a, v) else q) = (a, v) := by simp [hq]
        rw [h1, List.find?_cons_of_pos _ (by simp)]
      · have h1 : (if q.1 == a then (a, v) else q) = q := by simp [hq]
        have hm2 : m.any (fun p => p.1 == a) = true := by
          rcases List.any_eq_true.mp hm with ⟨x, hx, hxb⟩
          rcases List.mem_cons.mp hx with rfl | hxm
          · exact absurd (by simpa using hxb) hq
          · exact List.any_eq_true.mpr ⟨x, hxm, hxb⟩
        rw [h1, List.find?_cons_of_neg _ (by simpa using hq), ih hm2]

lemma find?_replace_ne {m : MarkerMap} {a k : String} (v : String)
    (hk : k ≠ a) :
    (m.map (fun p => if p.1 == a then (a, v) else p)).find?
      (fun p => p.1 == k) = m.find? (fun p => p.1 == k) := by
  induction m with
  | nil => rfl
  | cons q m ih =>
      rw [List.map_cons]
      by_cases hq : q.1 = a
      · have h1 : (if q.1 == a then (a, v) else q) = (a, v) := by simp [hq]
        have hqk : q.1 ≠ k := by rw [hq]; exact Ne.symm hk
        rw [h1, List.find?_cons_of_neg _ (by simpa using Ne.symm hk),
          List.find?_cons_of_neg _ (by simpa using hqk), ih]
      · have h1 : (if q.1 == a then (a, v) else q) = q := by simp [hq]
        rw [h1]
        by_cases hqk : q.1 = k
        · rw [List.find?_cons_of_pos _ (by simpa using hqk),
            List.find?_cons_of_pos _ (by simpa using hqk)]
        · rw [List.find?_cons_of_neg _ (by simpa using hqk),
            List.find?_cons_of_neg _ (by simpa using hqk), ih]

lemma find?_none_of_not_any {m : MarkerMap} {a : String}
    (hm : m.any (fun p => p.1 == a) = false) :
    m.find? (fun p => p.1 == a) = none := by
  rw [List.find?_eq_none]
  intro q hq hb
  have h2 : m.any (fun p => p.1 == a) = true := List.any_eq_true.mpr ⟨q, hq, hb⟩
  rw [hm] at h2
  exact Bool.false_ne_true h2

/-- Dictionary update law: looking up `k` after `d[a] = v`. -/
lemma mmFind_mmInsert (m : MarkerMap) (a v k : String) :
    mmFind (mmInsert m a v) k = if k = a then some v else mmFind m k := by
  unfold mmInsert mmFind
  by_cases hm : m.any (fun p => p.1 == a)
  · rw [if_pos hm]
    by_cases hk : k = a
    · subst hk
      rw [if_pos rfl, find?_replace_self v hm]
      rfl
    · rw [if_neg hk, find?_replace_ne v hk]
  · rw [if_neg hm, find?_append_option]
    by_cases hk : k = a
    · subst hk
      rw [if_pos rfl, find?_none_of_not_any (Bool.of_not_eq_true hm)]
      rw [List.find?_cons_of_pos _ (by simp)]
      rfl
    · rw [if_neg hk]
      have hb : (a == k) = false := beq_eq_false_iff_ne.mpr (Ne.symm hk)
      cases hf : m.find? (fun p => p.1 == k) with
      | none => simp [List.find?, hb]
      | some x => rfl

/-- C1: on the marker map `{"rs4244285": "AA"}` (no `rs12248560` entry),
`compute_drug_scores` yields for Clopidogrel phenotype `poor` with the low
score 20 (at most 25), and for Omeprazole on the same map phenotype `poor`
with score 95 (at least 90): direction-aware scoring on identical input. -/
theorem claim_C1 :
    ((lookupResult (compute_drug_scores [("rs4244285", "AA")]) "Clopidogrel").map
        (fun r => (r.phenotype, r.score)) = some ("poor", 20) ∧ 20 ≤ 25) ∧
    ((lookupResult (compute_drug_scores [("rs4244285", "AA")]) "Omeprazole").map
        (fun r => (r.phenotype, r.score)) = some ("poor", 95) ∧ 90 ≤ 95) := by
  refine ⟨⟨?_, by norm_num⟩, ⟨?_, by norm_num⟩⟩ <;> rfl

/-- C3 (evaluation at the failing input): the VCF record with ID
`rs3892097`, REF `G`, ALT `A`, FORMAT `GT` and sample `1/1` does parse to
the marker entry `rs3892097 → "AA"`, but `call_cyp2d6_phenotype` on
`{"rs3892097": "AA"}` returns `"normal"`, not `"poor"` as the claim states:
the code counts `G` (the reference base) as the loss allele, so only a `GG`
genotype is called `poor`. -/
theorem claim_C3_eval :
    parse_vcf ["#CHROM\tPOS\tID\tREF\tALT\tQUAL\tFILTER\tINFO\tFORMAT\tS1",
        "1\t100\trs3892097\tG\tA\t.\t.\t.\tGT\t1/1"] =
      some [("rs3892097", "AA")] ∧
    call_cyp2d6_phenotype [("rs3892097", "AA")] = "normal" ∧
    call_cyp2d6_phenotype [("rs3892097", "GG")] = "poor" := by
  refine ⟨?_, ?_, ?_⟩ <;> rfl

/-- C7: for a record with multi-allelic ALT `A,T` and sample GT `2/1`,
index 2 resolves to the second ALT allele `T` and index 1 to the first ALT
allele `A`, concatenated in GT token order: the stored genotype is `TA`. -/
theorem claim_C7 :
    parse_vcf ["#CHROM\tPOS\tID\tREF\tALT\tQUAL\tFILTER\tINFO\tFORMAT\tS1",
        "1\t100\trs100\tG\tA,T\t.\t.\t.\tGT\t2/1"] =
      some [("rs100", "TA")] := by
  rfl

/-- C5 counterexample: `parse_vcf` does not uppercase.  A record with
lowercase REF `g` and ALT `a` stores the genotype value `"ga"`, which is
not the uppercase of the raw token. -/
theorem claim_C5_counterexample :
    parse_vcf ["#CHROM\tPOS\tID\tREF\tALT", "1\t5\trs77\tg\ta"] =
      some [("rs77", "ga")] ∧
    pyUpper "ga" ≠ "ga" := by
  exact ⟨rfl, by decide⟩

/-- C8 counterexample: on a VCF input with no `#CHROM` header line the
parser does not surface any error — it silently skips every data line and
returns the empty marker map, and the scoring engine then computes a full
result set for it. -/
theorem claim_C8_counterexample :
    parse_vcf ["1\t100\trs4244285\tG\tA"] = some [] ∧
    (compute_drug_scores []).map Prod.fst =
      ["Codeine", "Clopidogrel", "Ibuprofen", "Paracetamol", "Omeprazole"] := by
  exact ⟨rfl, rfl⟩

/-- C9 counterexample: for a record with multi-character REF `AT`, ALT `A`
and no FORMAT/GT, the fallback joins the alleles with `/`, but the final
normalization strips the `/` again: the stored value is the plain
concatenation `"ATA"`, with no separator left in the marker map. -/
theorem claim_C9_counterexample :
    parse_vcf ["#CHROM\tPOS\tID\tREF\tALT", "1\t7\trs9\tAT\tA"] =
      some [("rs9", "ATA")] ∧
    '/' ∉ ("ATA" : String).data := by
  exact ⟨rfl, by decide⟩

/-- C4: `call_cyp2c19_phenotype` is exactly the claimed mapping on the loss
dosage (`A` at rs4244285) and gain dosage (`T` at rs12248560): loss ≥ 2 →
poor, loss = 1 → intermediate, otherwise gain ≥ 2 → ultrarapid, gain = 1 →
rapid, otherwise normal; loss is checked first and takes priority. -/
theorem claim_C4 (found : MarkerMap) :
    call_cyp2c19_phenotype found = cyp2c19Spec found := by
  simp only [call_cyp2c19_phenotype, cyp2c19Spec]
  rw [truthyCount_eq_alleleCount, truthyCount_eq_alleleCount]
  exact c19_branch_eq _ _

/-- C10: `call_cyp2d6_phenotype` only ever returns poor, intermediate or
normal — never rapid or ultrarapid — so the Codeine score computed by
`compute_drug_scores` is always 10, 40 or 85 and the 95/99 branches are
dead code. -/
theorem claim_C10 (snp : MarkerMap) :
    (call_cyp2d6_phenotype snp = "poor" ∨
     call_cyp2d6_phenotype snp = "intermediate" ∨
     call_cyp2d6_phenotype snp = "normal") ∧
    ((lookupResult (compute_drug_scores snp) "Codeine").map DrugResult.score = some 10 ∨
     (lookupResult (compute_drug_scores snp) "Codeine").map DrugResult.score = some 40 ∨
     (lookupResult (compute_drug_scores snp) "Codeine").map DrugResult.score = some 85) := by
  refine ⟨cyp2d6_cases snp, ?_⟩
  set fd := foundFor codeineMeta.gene_rsids snp with hfd
  have hlook : (lookupResult (compute_drug_scores snp) "Codeine").map DrugResult.score =
      some (drugPhenotypeScore "Codeine" codeineMeta fd).2 := rfl
  rcases cyp2d6_cases fd with hp | hp | hp <;>
    rw [hlook] <;>
    simp [drugPhenotypeScore, codeineMeta, hp]

/-- C2: for every input marker map, `compute_drug_scores` is total (the
embedding is a Lean function, mirroring that the source only uses
non-raising dictionary access) and returns exactly one entry per drug of
the `DRUGS` table, in table order; for every drug none of whose relevant
rsIDs occur in the map, the entry carries phenotype `normal` and the same
(phenotype, score) as on an empty map — the drug's no-evidence default. -/
theorem claim_C2 (snp : MarkerMap) :
    (compute_drug_scores snp).map Prod.fst = DRUGS.map Prod.fst ∧
    ∀ p ∈ DRUGS, (∀ r ∈ p.2.gene_rsids, mmFind snp r = none) →
      (lookupResult (compute_drug_scores snp) p.1).map
          (fun res => (res.phenotype, res.score)) =
        (lookupResult (compute_drug_scores []) p.1).map
          (fun res => (res.phenotype, res.score)) ∧
      (lookupResult (compute_drug_scores snp) p.1).map DrugResult.phenotype =
        some "normal" := by
  refine ⟨rfl, ?_⟩
  intro p hp hnone
  have hf := foundFor_eq_nil p.2.gene_rsids snp hnone
  simp only [DRUGS, List.mem_cons, List.not_mem_nil, or_false] at hp
  rcases hp with rfl | rfl | rfl | rfl | rfl <;>
    simp [compute_drug_scores, DRUGS, scoreEntry, lookupResult, hf] <;>
    decide

/-- C2 witness: `claim_C2` applied to the concrete map `{"rs0": "AB"}`,
which contains no rsID relevant to Codeine. -/
theorem claim_C2_witness :
    (compute_drug_scores [("rs0", "AB")]).map Prod.fst = DRUGS.map Prod.fst ∧
    (lookupResult (compute_drug_scores [("rs0", "AB")]) "Codeine").map
        DrugResult.phenotype = some "normal" := by
  refine ⟨(claim_C2 [("rs0", "AB")]).1, ?_⟩
  exact (((claim_C2 [("rs0", "AB")]).2 ("Codeine", codeineMeta)
    (by simp [DRUGS]) (by decide)).2)

/-! ### Structural lemmas about dictionary insertion -/

lemma any_key_iff {m : MarkerMap} {a : String} :
    m.any (fun p => p.1 == a) = true ↔ a ∈ m.map Prod.fst := by
  rw [List.any_eq_true]
  constructor
  · rintro ⟨p, hp, hb⟩
    exact List.mem_map.mpr ⟨p, hp, beq_iff_eq.mp hb⟩
  · intro h
    rcases List.mem_map.mp h with ⟨p, hp, rfl⟩
    exact ⟨p, hp, beq_self_eq_true _⟩

lemma map_fst_replace (m : MarkerMap) (a v : String) :
    (m.map (fun p => if p.1 == a then (a, v) else p)).map Prod.fst =
      m.map Prod.fst := by
  induction m with
  | nil => rfl
  | cons q m ih =>
      rw [List.map_cons, List.map_cons, List.map_cons, ih]
      congr 1
      by_cases hq : q.1 = a
      · simp [hq]
      · simp [hq]

lemma map_fst_mmInsert (m : MarkerMap) (a v : String) :
    (mmInsert m a v).map Prod.fst =
      if a ∈ m.map Prod.fst then m.map Prod.fst
      else m.map Prod.fst ++ [a] := by
  unfold mmInsert
  by_cases hm : m.any (fun p => p.1 == a)
  · rw [if_pos hm, if_pos (any_key_iff.mp hm), map_fst_replace]
  · rw [if_neg hm, if_neg (fun hmem => hm (any_key_iff.mpr hmem)),
      List.map_append]
    rfl

lemma nodup_fst_mmInsert {m : MarkerMap} {a v : String}
    (h : (m.map Prod.fst).Nodup) :
    ((mmInsert m a v).map Prod.fst).Nodup := by
  rw [map_fst_mmInsert]
  by_cases hm : a ∈ m.map Prod.fst
  · rw [if_pos hm]; exact h
  · rw [if_neg hm]
    simp [List.nodup_append, h, hm]

lemma mmInsert_val_cases {m : MarkerMap} {a v : String} {p : String × String}
    (hp : p ∈ mmInsert m a v) : p ∈ m ∨ p.2 = v := by
  unfold mmInsert at hp
  by_cases hm : m.any (fun q => q.1 == a)
  · rw [if_pos hm] at hp
    rcases List.mem_map.mp hp with ⟨q, hq, rfl⟩
    by_cases hqa : q.1 = a
    · right; simp [hqa]
    · left; simpa [hqa] using hq
  · rw [if_neg hm] at hp
    rcases List.mem_append.mp hp with h | h
    · exact Or.inl h
    · right
      rw [List.mem_singleton.mp h]

/-! ### Separator-freedom of stored genotype values -/

lemma sepFree_store (g : String) : sepFree (vcfStoreValue g) :=
  ⟨not_mem_removeChar_of _ _ _ (not_mem_removeChar_self '/' g),
   not_mem_removeChar_self '|' _⟩

/-- Every value stored by the rsid/genotype branch is fully normalized:
no `/`, `|` or space, and uppercasing is the identity on it. -/
lemma parse_rsid_genotype_vals (rsIdx gtIdx : Nat) (rows : List (List String)) :
    ∀ p ∈ parse_rsid_genotype rsIdx gtIdx rows,
      '/' ∉ p.2.data ∧ '|' ∉ p.2.data ∧ ' ' ∉ p.2.data ∧
        pyUpper p.2 = p.2 := by
  suffices h : ∀ (rs : List (List String)) (acc : MarkerMap),
      (∀ p ∈ acc, '/' ∉ p.2.data ∧ '|' ∉ p.2.data ∧ ' ' ∉ p.2.data ∧
        pyUpper p.2 = p.2) →
      ∀ p ∈ rs.foldl (csvStep rsIdx gtIdx) acc,
        '/' ∉ p.2.data ∧ '|' ∉ p.2.data ∧ ' ' ∉ p.2.data ∧
          pyUpper p.2 = p.2 by
    exact h rows [] (fun p hp => absurd hp (List.not_mem_nil p))
  intro rs
  induction rs with
  | nil => exact fun acc hacc => hacc
  | cons row rest ih =>
      intro acc hacc
      rw [List.foldl_cons]
      apply ih
      intro p hp
      simp only [csvStep] at hp
      split_ifs at hp with hc
      · rcases mmInsert_val_cases hp with h | h
        · exact hacc p h
        · rw [h]; exact normalizeGt_ok _
      · exact hacc p hp

/-! ### VCF loop invariants -/

lemma vcfDataLine_cases {headerCols : List String} {records : MarkerMap}
    {line : String} {r : MarkerMap}
    (h : vcfDataLine headerCols records line = some r) :
    r = records ∨ ∃ k g, r = mmInsert records k (vcfStoreValue g) := by
  simp only [vcfDataLine] at h
  split at h
  · exact absurd h (by simp)
  · split_ifs at h with hc
    · right; exact ⟨_, _, (Option.some.inj h).symm⟩
    · left; exact (Option.some.inj h).symm

lemma vcfLine_records {st st2 : VcfState} {l : String}
    (h : vcfLine st l = some st2) :
    st2.records = st.records ∨
    ∃ k g, st2.records = mmInsert st.records k (vcfStoreValue g) := by
  simp only [vcfLine] at h
  split_ifs at h
  · left; rw [← Option.some.inj h]
  · left; rw [← Option.some.inj h]
  · left; rw [← Option.some.inj h]
  · cases hh : st.header with
    | none =>
        rw [hh] at h
        left; rw [← Option.some.inj h]
    | some headerCols =>
        rw [hh] at h
        rcases Option.map_eq_some'.mp h with ⟨r, hr, hst⟩
        rcases vcfDataLine_cases hr with h1 | ⟨k, g, h1⟩
        · left; rw [← hst]; exact h1
        · right; exact ⟨k, g, by rw [← hst]; exact h1⟩

lemma vcfRun_inv {lines : List String} :
    ∀ {st st2 : VcfState}, vcfRun st lines = some st2 →
      (∀ p ∈ st.records, sepFree p.2) → ∀ p ∈ st2.records, sepFree p.2 := by
  induction lines with
  | nil =>
      intro st st2 h hinv
      rw [← Option.some.inj h]
      exact hinv
  | cons l ls ih =>
      intro st st2 h hinv
      simp only [vcfRun] at h
      cases hl : vcfLine st l with
      | none => rw [hl] at h; exact absurd h (by simp)
      | some st1 =>
          rw [hl] at h
          refine ih h ?_
          intro p hp
          rcases vcfLine_records hl with h1 | ⟨k, g, h1⟩
          · rw [h1] at hp; exact hinv p hp
          · rw [h1] at hp
            rcases mmInsert_val_cases hp with h2 | h2
            · exact hinv p h2
            · rw [h2]; exact sepFree_store g

/-- C5 (amended): values stored by the rsid/genotype branch of
`parse_23andme_csv` are uppercased with `/`, `|` and the space character
removed; values stored by `parse_vcf` only have `/` and `|` removed — they
are neither uppercased nor space-stripped (see the counterexample). -/
theorem claim_C5_amended :
    (∀ rsIdx gtIdx rows, ∀ p ∈ parse_rsid_genotype rsIdx gtIdx rows,
        '/' ∉ p.2.data ∧ '|' ∉ p.2.data ∧ ' ' ∉ p.2.data ∧
          pyUpper p.2 = p.2) ∧
    (∀ lines m, parse_vcf lines = some m → ∀ p ∈ m,
        '/' ∉ p.2.data ∧ '|' ∉ p.2.data) := by
  constructor
  · exact parse_rsid_genotype_vals
  · intro lines m hm p hp
    rcases Option.map_eq_some'.mp hm with ⟨st2, hrun, hrec⟩
    have h := vcfRun_inv hrun
      (fun q hq => absurd hq (List.not_mem_nil q)) p (by rw [hrec]; exact hp)
    exact h

/-- C5 amended witness: the csv branch stores `"GA"` for raw `"g/a"` (fully
normalized), the VCF parser stores `"ga"` for lowercase REF/ALT
(separator-free only). -/
theorem claim_C5_amended_witness :
    ('/' ∉ ("GA" : String).data ∧ '|' ∉ ("GA" : String).data ∧
      ' ' ∉ ("GA" : String).data ∧ pyUpper "GA" = "GA") ∧
    ('/' ∉ ("ga" : String).data ∧ '|' ∉ ("ga" : String).data) := by
  constructor
  · exact claim_C5_amended.1 0 1 [["rs1", "g/a"]] ("rs1", "GA") (by decide)
  · exact claim_C5_amended.2 ["#CHROM\tPOS\tID\tREF\tALT", "1\t5\trs77\tg\ta"]
      [("rs77", "ga")] (by decide) ("rs77", "ga") (by decide)

/-! ### No-header behaviour of the VCF parser -/

lemma vcfLine_no_header {st : VcfState} (hh : st.header = none) {l : String}
    (hl : pyStartsWith "#CHROM" l = false) : vcfLine st l = some st := by
  simp only [vcfLine]
  split_ifs with h1 h2 h3
  · rfl
  · rw [hl] at h2
    exact absurd h2 (by simp)
  · rfl
  · rw [hh]

lemma vcfRun_no_header (lines : List String)
    (h : ∀ l ∈ lines, pyStartsWith "#CHROM" l = false) :
    vcfRun ⟨none, []⟩ lines = some ⟨none, []⟩ := by
  induction lines with
  | nil => rfl
  | cons l ls ih =>
      simp only [vcfRun]
      rw [vcfLine_no_header rfl (h l (List.mem_cons_self l ls))]
      exact ih (fun x hx => h x (List.mem_cons_of_mem _ hx))

/-- C8 (amended): on a VCF input with no `#CHROM` header line, `parse_vcf`
does not fail at all — every data line is silently skipped and the empty
marker map is returned, on which scoring then proceeds with defaults (see
the counterexample theorem for the computed scores). -/
theorem claim_C8_amended (lines : List String)
    (h : ∀ l ∈ lines, pyStartsWith "#CHROM" l = false) :
    parse_vcf lines = some [] := by
  unfold parse_vcf
  rw [vcfRun_no_header lines h]
  rfl

/-- C8 amended witness: `claim_C8_amended` on a concrete headerless VCF. -/
theorem claim_C8_amended_witness :
    parse_vcf ["##fileformat=VCFv4.2", "1\t100\trs4244285\tG\tA"] = some [] :=
  claim_C8_amended ["##fileformat=VCFv4.2", "1\t100\trs4244285\tG\tA"] (by decide)

/-! ### The REF/ALT fallback and the final separator strip -/

lemma removeChar_append_sep (s t : String) :
    removeChar '/' (s ++ "/" ++ t) = removeChar '/' (s ++ t) := by
  show String.mk _ = String.mk _
  congr 1
  show ((s ++ "/" ++ t).data).filter (fun a => a ≠ '/') =
    ((s ++ t).data).filter (fun a => a ≠ '/')
  have h1 : (s ++ "/" ++ t).data = s.data ++ ('/' :: []) ++ t.data := rfl
  have h2 : (s ++ t).data = s.data ++ t.data := rfl
  rw [h1, h2, List.filter_append, List.filter_append, List.filter_append]
  simp

/-- C9 (amended): when no FORMAT/GT genotype is resolvable, the fallback
genotype is REF plus the first ALT allele — directly concatenated when both
are single characters, otherwise joined with `/` — but the final
normalization removes the `/` again, so the stored marker value is the
plain concatenation in both cases and never contains a separator. -/
theorem claim_C9_amended (ref alt : String) (href : ref ≠ "")
    (halt : alt ≠ "") :
    vcfStoreValue (vcfFallbackGenotype ref alt) =
      vcfStoreValue (ref ++ (splitChar ',' alt).headD "") ∧
    '/' ∉ (vcfStoreValue (vcfFallbackGenotype ref alt)).data ∧
    '|' ∉ (vcfStoreValue (vcfFallbackGenotype ref alt)).data := by
  refine ⟨?_, (sepFree_store _).1, (sepFree_store _).2⟩
  simp only [vcfFallbackGenotype]
  rw [if_pos ⟨halt, href⟩]
  by_cases hs : ref.length = 1 ∧ ((splitChar ',' alt).headD "").length = 1
  · rw [if_pos hs]
  · rw [if_neg hs]
    unfold vcfStoreValue
    rw [removeChar_append_sep]

/-- C9 amended witness: `claim_C9_amended` at the indel-style REF `"AT"`,
ALT `"A"`. -/
theorem claim_C9_amended_witness :
    vcfStoreValue (vcfFallbackGenotype "AT" "A") =
      vcfStoreValue ("AT" ++ (splitChar ',' "A").headD "") ∧
    '/' ∉ (vcfStoreValue (vcfFallbackGenotype "AT" "A")).data ∧
    '|' ∉ (vcfStoreValue (vcfFallbackGenotype "AT" "A")).data :=
  claim_C9_amended "AT" "A" (by decide) (by decide)

/-! ### Last-write-wins characterization of the rsid/genotype branch -/

lemma orO_none_right (a : Option String) : orO a none = a := by
  cases a <;> rfl

lemma orO_assoc (a b c : Option String) :
    orO (orO a b) c = orO a (orO b c) := by
  cases a <;> rfl

lemma lookupLast_cons (p : String × String) (l : List (String × String))
    (k : String) :
    lookupLast (p :: l) k =
      orO (lookupLast l k) (if p.1 = k then some p.2 else none) := by
  unfold lookupLast
  rw [List.reverse_cons, find?_append_option]
  cases hf : l.reverse.find? (fun q => q.1 == k) with
  | some x => rfl
  | none =>
      by_cases hk : p.1 = k
      · rw [List.find?_cons_of_pos _ (by simpa using hk), if_pos hk]
        rfl
      · rw [List.find?_cons_of_neg _ (by simpa using hk), if_neg hk]
        rfl

lemma pairHit_some (p : String × String) (k : String) :
    pairHit (some p) k = if p.1 = k then some p.2 else none := rfl

lemma pairHit_none (k : String) : pairHit none k = none := rfl

lemma mmFind_csvStep (rsIdx gtIdx : Nat) (acc : MarkerMap)
    (row : List String) (k : String) :
    mmFind (csvStep rsIdx gtIdx acc row) k =
      orO (pairHit (retainedPair rsIdx gtIdx row) k) (mmFind acc k) := by
  simp only [csvStep, retainedPair]
  by_cases hc : pyStrip (cellAt row rsIdx) ≠ "" ∧
      pyStartsWith "rs" (pyStrip (cellAt row rsIdx))
  · rw [if_pos hc, if_pos hc, mmFind_mmInsert, pairHit_some]
    dsimp only
    by_cases hk : k = pyStrip (cellAt row rsIdx)
    · rw [if_pos hk, if_pos hk.symm]
      rfl
    · rw [if_neg hk, if_neg (fun h => hk h.symm)]
      rfl
  · rw [if_neg hc, if_neg hc, pairHit_none]
    rfl

lemma mmFind_foldl_csv (rsIdx gtIdx : Nat) (rows : List (List String)) :
    ∀ (acc : MarkerMap) (k : String),
      mmFind (rows.foldl (csvStep rsIdx gtIdx) acc) k =
        orO (lookupLast (retainedPairs rsIdx gtIdx rows) k) (mmFind acc k) := by
  induction rows with
  | nil => intro acc k; rfl
  | cons row rest ih =>
      intro acc k
      rw [List.foldl_cons, ih, mmFind_csvStep]
      show _ = orO (lookupLast ((row :: rest).filterMap
        (retainedPair rsIdx gtIdx)) k) (mmFind acc k)
      rw [List.filterMap_cons]
      cases hr : retainedPair rsIdx gtIdx row with
      | none => rfl
      | some pr =>
          rw [lookupLast_cons, orO_assoc]
          rfl

/-- The stored map looked up at `k` is exactly the last retained row for
`k`. -/
lemma mmFind_parse_rsid_genotype (rsIdx gtIdx : Nat)
    (rows : List (List String)) (k : String) :
    mmFind (parse_rsid_genotype rsIdx gtIdx rows) k =
      lookupLast (retainedPairs rsIdx gtIdx rows) k := by
  unfold parse_rsid_genotype
  rw [mmFind_foldl_csv]
  show orO _ none = _
  rw [orO_none_right]

/-! ### Key-set and size of the stored map -/

lemma mmFind_isSome_iff {m : MarkerMap} {k : String} :
    (mmFind m k).isSome = true ↔ k ∈ m.map Prod.fst := by
  unfold mmFind
  cases hf : m.find? (fun p => p.1 == k) with
  | none =>
      simp only [Option.map_none', Option.isSome_none]
      constructor
      · intro h; exact absurd h (by simp)
      · intro h
        rcases List.mem_map.mp h with ⟨p, hp, rfl⟩
        have h2 := List.find?_eq_none.mp hf p hp
        exact absurd (beq_self_eq_true p.1) h2
  | some x =>
      simp only [Option.map_some', Option.isSome_some, true_iff]
      have hx := List.find?_some hf
      have hmem := List.mem_of_find?_eq_some hf
      exact List.mem_map.mpr ⟨x, hmem, beq_iff_eq.mp hx⟩

lemma lookupLast_isSome_iff {l : List (String × String)} {k : String} :
    (lookupLast l k).isSome = true ↔ k ∈ l.map Prod.fst := by
  unfold lookupLast
  cases hf : l.reverse.find? (fun q => q.1 == k) with
  | none =>
      simp only [Option.map_none', Option.isSome_none]
      constructor
      · intro h; exact absurd h (by simp)
      · intro h
        rcases List.mem_map.mp h with ⟨p, hp, rfl⟩
        have h2 := List.find?_eq_none.mp hf p (List.mem_reverse.mpr hp)
        exact absurd (beq_self_eq_true p.1) h2
  | some x =>
      simp only [Option.map_some', Option.isSome_some, true_iff]
      have hx := List.find?_some hf
      have hmem := List.mem_reverse.mp (List.mem_of_find?_eq_some hf)
      exact List.mem_map.mpr ⟨x, hmem, beq_iff_eq.mp hx⟩

lemma mem_fst_parse_rsid_genotype (rsIdx gtIdx : Nat)
    (rows : List (List String)) (k : String) :
    k ∈ (parse_rsid_genotype rsIdx gtIdx rows).map Prod.fst ↔
      k ∈ (retainedPairs rsIdx gtIdx rows).map Prod.fst := by
  rw [← mmFind_isSome_iff, ← lookupLast_isSome_iff,
    mmFind_parse_rsid_genotype]

lemma nodup_fst_foldl_csv (rsIdx gtIdx : Nat) (rows : List (List String)) :
    ∀ acc : MarkerMap, (acc.map Prod.fst).Nodup →
      ((rows.foldl (csvStep rsIdx gtIdx) acc).map Prod.fst).Nodup := by
  induction rows with
  | nil => exact fun acc h => h
  | cons row rest ih =>
      intro acc hacc
      rw [List.foldl_cons]
      apply ih
      simp only [csvStep]
      split_ifs with hc
      · exact nodup_fst_mmInsert hacc
      · exact hacc

lemma nodup_fst_parse_rsid_genotype (rsIdx gtIdx : Nat)
    (rows : List (List String)) :
    ((parse_rsid_genotype rsIdx gtIdx rows).map Prod.fst).Nodup :=
  nodup_fst_foldl_csv rsIdx gtIdx rows [] List.nodup_nil

/-- C6: when the (case-insensitive) header has both `rsid` and `genotype`
columns, `parse_23andme_csv` runs the rsid/genotype branch and the
resulting map (i) has pairwise-distinct keys, (ii) contains a key iff some
retained row (one whose stripped rsid starts with `rs`) carries it,
(iii) maps every key to the normalized genotype of the *last* retained row
with that rsid, and (iv) has as many entries as there are distinct
retained rsIDs. -/
theorem claim_C6 (header : List String) (rows : List (List String))
    (hrs : "rsid" ∈ header.map pyLower)
    (hgt : "genotype" ∈ header.map pyLower) :
    parse_23andme_csv header rows =
      some (parse_rsid_genotype (colIndexLower header "rsid")
        (colIndexLower header "genotype") rows) ∧
    ((parse_rsid_genotype (colIndexLower header "rsid")
        (colIndexLower header "genotype") rows).map Prod.fst).Nodup ∧
    (∀ k, k ∈ (parse_rsid_genotype (colIndexLower header "rsid")
        (colIndexLower header "genotype") rows).map Prod.fst ↔
      k ∈ (retainedPairs (colIndexLower header "rsid")
        (colIndexLower header "genotype") rows).map Prod.fst) ∧
    (∀ k, mmFind (parse_rsid_genotype (colIndexLower header "rsid")
        (colIndexLower header "genotype") rows) k =
      lookupLast (retainedPairs (colIndexLower header "rsid")
        (colIndexLower header "genotype") rows) k) ∧
    (parse_rsid_genotype (colIndexLower header "rsid")
        (colIndexLower header "genotype") rows).length =
      ((retainedPairs (colIndexLower header "rsid")
        (colIndexLower header "genotype") rows).map Prod.fst).dedup.length := by
  refine ⟨?_, nodup_fst_parse_rsid_genotype _ _ _,
    fun k => mem_fst_parse_rsid_genotype _ _ _ k,
    fun k => mmFind_parse_rsid_genotype _ _ _ k, ?_⟩
  · simp only [parse_23andme_csv]
    rw [if_pos ⟨hrs, hgt⟩]
  · have hnd := nodup_fst_parse_rsid_genotype (colIndexLower header "rsid")
      (colIndexLower header "genotype") rows
    have hset : ((parse_rsid_genotype (colIndexLower header "rsid")
        (colIndexLower header "genotype") rows).map Prod.fst).toFinset =
        ((retainedPairs (colIndexLower header "rsid")
          (colIndexLower header "genotype") rows).map Prod.fst).toFinset := by
      apply Finset.ext
      intro k
      rw [List.mem_toFinset, List.mem_toFinset]
      exact mem_fst_parse_rsid_genotype _ _ _ k
    calc (parse_rsid_genotype (colIndexLower header "rsid")
            (colIndexLower header "genotype") rows).length
        = ((parse_rsid_genotype (colIndexLower header "rsid")
            (colIndexLower header "genotype") rows).map Prod.fst).length := by
          rw [List.length_map]
      _ = ((parse_rsid_genotype (colIndexLower header "rsid")
            (colIndexLower header "genotype") rows).map Prod.fst).dedup.length := by
          rw [List.Nodup.dedup hnd]
      _ = ((parse_rsid_genotype (colIndexLower header "rsid")
            (colIndexLower header "genotype") rows).map Prod.fst).toFinset.card := by
          rw [List.card_toFinset]
      _ = ((retainedPairs (colIndexLower header "rsid")
            (colIndexLower header "genotype") rows).map Prod.fst).toFinset.card := by
          rw [hset]
      _ = ((retainedPairs (colIndexLower header "rsid")
            (colIndexLower header "genotype") rows).map Prod.fst).dedup.length := by
          rw [List.card_toFinset]

/-- C6 witness: `claim_C6` on a concrete table in which `rs1` occurs twice
with different genotypes: the map keeps one entry per rsid, `rs1` gets the
last row's normalized value `GG`, and the size is the number of distinct
retained rsIDs. -/
theorem claim_C6_witness :
    parse_23andme_csv ["rsid", "genotype"]
        [["rs1", "A/A"], ["rs1", "G G"], ["rs2", "C|T"]] =
      some (parse_rsid_genotype
        (colIndexLower ["rsid", "genotype"] "rsid")
        (colIndexLower ["rsid", "genotype"] "genotype")
        [["rs1", "A/A"], ["rs1", "G G"], ["rs2", "C|T"]]) ∧
    mmFind (parse_rsid_genotype
        (colIndexLower ["rsid", "genotype"] "rsid")
        (colIndexLower ["rsid", "genotype"] "genotype")
        [["rs1", "A/A"], ["rs1", "G G"], ["rs2", "C|T"]]) "rs1" =
      lookupLast (retainedPairs
        (colIndexLower ["rsid", "genotype"] "rsid")
        (colIndexLower ["rsid", "genotype"] "genotype")
        [["rs1", "A/A"], ["rs1", "G G"], ["rs2", "C|T"]]) "rs1" ∧
    mmFind (parse_rsid_genotype
        (colIndexLower ["rsid", "genotype"] "rsid")
        (colIndexLower ["rsid", "genotype"] "genotype")
        [["rs1", "A/A"], ["rs1", "G G"], ["rs2", "C|T"]]) "rs1" = some "GG" ∧
    (parse_rsid_genotype
        (colIndexLower ["rsid", "genotype"] "rsid")
        (colIndexLower ["rsid", "genotype"] "genotype")
        [["rs1", "A/A"], ["rs1", "G G"], ["rs2", "C|T"]]).length =
      ((retainedPairs
        (colIndexLower ["rsid", "genotype"] "rsid")
        (colIndexLower ["rsid", "genotype"] "genotype")
        [["rs1", "A/A"], ["rs1", "G G"], ["rs2", "C|T"]]).map
          Prod.fst).dedup.length := by
  have h := claim_C6 ["rsid", "genotype"]
    [["rs1", "A/A"], ["rs1", "G G"], ["rs2", "C|T"]] (by decide) (by decide)
  exact ⟨h.1, h.2.2.2.1 "rs1", by decide, h.2.2.2.2⟩

end DrugGen
